import Mathlib

/-!
Shallow embedding of `src/api/index.py` (Flask movie-catalogue site with a
Telegram ingestion bot and on-demand link resolution).

External collaborators (MongoDB, the TMDB HTTP API, the Telegram bot API and
the Pyrogram client) are modelled as explicit environments: each outbound call
is a field of an environment structure returning `Except`/`Option` values, and
effectful handlers return, next to their result, the list of messages sent or
calls performed.  Python exceptions are modelled with `Except`; `None` with
`Option`; Python string truthiness (where the code relies on it) is modelled
explicitly.
-/

namespace FreeMovieHub

/-! ### Filename parser (`parse_filename`, index.py lines 105-111)

The regex is `^(.*?)\s*\((\d{4})\)` used with `re.search` (the `^` anchor and
the absence of `re.MULTILINE`/`re.DOTALL` mean the match starts at index 0 and
the lazy group 1 cannot cross a newline).  Whitespace and digit classes are
modelled over their ASCII ranges. -/

/-- ASCII whitespace, modelling Python's `\s` class and `str.strip()`. -/
def pySpace (c : Char) : Bool :=
  c = ' ' || c = '\t' || c = '\n' || c = '\r' || c = '\x0b' || c = '\x0c'

/-- ASCII decimal digit, modelling `\d`. -/
def pyDigit (c : Char) : Bool := '0' ≤ c && c ≤ '9'

/-- Tries to match `\s*\((\d{4})\)` at the start of `cs`, returning the four
year digits.  (Backtracking `\s*` is equivalent to a greedy skip here, since a
shorter whitespace match would leave `\(` facing a whitespace character.) -/
def tryYear (cs : List Char) : Option (List Char) :=
  match cs.dropWhile pySpace with
  | [] => none
  | c0 :: cs1 =>
    if c0 = '(' then
      match cs1 with
      | d1 :: d2 :: d3 :: d4 :: c5 :: _ =>
        if pyDigit d1 && pyDigit d2 && pyDigit d3 && pyDigit d4 && c5 = ')' then
          some [d1, d2, d3, d4]
        else none
      | _ => none
    else none

/-- Lazy search for the leftmost split `group1 ++ \s* ( dddd )`, with `group1`
(the lazy `.*?`) not allowed to contain a newline.  Returns (group 1, year). -/
def searchTitleYear (cs : List Char) : Option (List Char × List Char) :=
  match tryYear cs with
  | some y => some ([], y)
  | none =>
    match cs with
    | [] => none
    | c :: rest =>
      if c = '\n' then none
      else
        match searchTitleYear rest with
        | some (p, y) => some (c :: p, y)
        | none => none

/-- Python `str.strip()`: drop ASCII whitespace from both ends. -/
def pyStrip (cs : List Char) : List Char :=
  (cs.dropWhile pySpace).rdropWhile pySpace

/-- Python `str.replace(old, new)` for single characters. -/
def pyReplace (old new : Char) (cs : List Char) : List Char :=
  cs.map fun c => if c = old then new else c

/-- `parse_filename` (lines 105-111): on a match returns
`(group1.strip().replace('.', ' ').replace('_', ' '), year)`, otherwise the
Python `(None, None)` is modelled as `none`. -/
def parse_filename (s : String) : Option (String × String) :=
  match searchTitleYear s.data with
  | some (p, y) => some (⟨pyReplace '_' ' ' (pyReplace '.' ' ' (pyStrip p))⟩, ⟨y⟩)
  | none => none

/-! ### Metadata lookup client (`search_tmdb_for_bot`, lines 113-134)

The two HTTP GETs (multi-search, then details) are modelled as environment
functions returning `Except`; any exception anywhere in the `try` block is
caught and turned into `None`.  Python string truthiness (`x or y`,
`if data.get('poster_path')`) is modelled by `pyOrStr` / emptiness tests.
Floating-point vote averages are modelled as rationals. -/

/-- Python `a or b` on two optional strings: `a` wins unless it is `None` or
the empty string (both falsy). -/
def pyOrStr (a b : Option String) : Option String :=
  match a with
  | some s => if s = "" then b else some s
  | none => b

/-- One entry of the TMDB multi-search result list (the fields the code
reads: `media_type` and `id`). -/
structure TmdbResult where
  media_type : String
  id : Nat
deriving DecidableEq, Repr

/-- The raw JSON body of the TMDB details endpoint (the fields the code
reads). -/
structure TmdbDetailData where
  title : Option String
  name : Option String
  poster_path : Option String
  backdrop_path : Option String
  overview : Option String
  release_date : Option String
  first_air_date : Option String
  genres : List String
  vote_average : Option ℚ
deriving DecidableEq, Repr

/-- The normalized record `search_tmdb_for_bot` returns. -/
structure TmdbDetails where
  title : Option String
  poster : Option String
  backdrop : Option String
  overview : Option String
  release_date : Option String
  genres : List String
  vote_average : Option ℚ
  type : String
deriving DecidableEq, Repr

/-- Environment for the two TMDB HTTP requests; `.error` models a raised
exception (network failure, bad JSON, missing key). -/
structure TmdbEnv where
  multiSearch : String → String → Except String (List TmdbResult)
  details : String → Nat → Except String TmdbDetailData

/-- A result qualifies when `r.get('media_type') in ['movie', 'tv']`. -/
def isQualifying (r : TmdbResult) : Bool :=
  r.media_type == "movie" || r.media_type == "tv"

/-- `search_tmdb_for_bot` (lines 113-134). -/
def search_tmdb_for_bot (env : TmdbEnv) (title year : String) : Option TmdbDetails :=
  match env.multiSearch title year with
  | .error _ => none
  | .ok results =>
    match results.find? isQualifying with
    | none => none
    | some first_result =>
      match env.details first_result.media_type first_result.id with
      | .error _ => none
      | .ok data =>
        some
          { title := pyOrStr data.title data.name
            poster := match data.poster_path with
              | some p => if p = "" then none else some ("https://image.tmdb.org/t/p/w500" ++ p)
              | none => none
            backdrop := match data.backdrop_path with
              | some p => if p = "" then none else some ("https://image.tmdb.org/t/p/w1280" ++ p)
              | none => none
            overview := data.overview
            release_date := pyOrStr data.release_date data.first_air_date
            genres := data.genres
            vote_average := data.vote_average
            type := if first_result.media_type == "tv" then "series" else "movie" }

/-! ### Data model (catalogue documents and the four Mongo collections) -/

/-- `PLACEHOLDER_POSTER` (line 52). -/
def PLACEHOLDER_POSTER : String :=
  "https://via.placeholder.com/400x600.png?text=Poster+Not+Found"

/-- `ITEMS_PER_PAGE` (line 53). -/
def ITEMS_PER_PAGE : Nat := 20

/-- The `telegram_ref` subdocument (line 157). -/
structure TelegramRef where
  chat_id : Int
  message_id : Nat
deriving DecidableEq, Repr

/-- A document of the `movies` collection.  `oid` models the Mongo `_id`
`ObjectId` as a natural number; insertion-order identifiers are monotonically
increasing.  Channel-sourced documents carry `telegram_ref`; admin-created
ones carry `manual_links` instead. -/
structure MovieDoc where
  oid : Nat
  title : Option String
  type : String
  poster : String
  backdrop : Option String
  overview : Option String
  release_date : Option String
  genres : List String
  vote_average : Option ℚ
  categories : List String := []
  telegram_ref : Option TelegramRef := none
  manual_links : List (String × String) := []
deriving DecidableEq, Repr

/-- A document of the `requests` collection. -/
structure ReqDoc where
  name : String
  info : String
  status : String
deriving DecidableEq, Repr

/-- The singleton ad-configuration document of the `settings` collection. -/
structure AdConfig where
  ad_header : Option String := none
  ad_body_top : Option String := none
  ad_footer : Option String := none
  ad_list_page : Option String := none
  ad_detail_page : Option String := none
  ad_wait_page : Option String := none
deriving DecidableEq, Repr

/-- The document store: the four collections the application uses.  Each list
is kept in insertion order (so `_id`s, being monotonic, ascend along it). -/
structure SiteDB where
  movies : List MovieDoc
  settings : Option AdConfig
  categories : List String
  requests : List ReqDoc
deriving DecidableEq, Repr

/-! ### Ingestion handler (`handle_new_post`, lines 136-165) -/

/-- A Telegram video/document attachment (the field the code reads). -/
structure TgFile where
  file_name : Option String
deriving DecidableEq, Repr

/-- A Telegram channel-post message (the fields the code reads). -/
structure TgMessage where
  chat_id : Int
  message_id : Nat
  video : Option TgFile
  document : Option TgFile
deriving DecidableEq, Repr

/-- A Telegram update payload (the field the code reads). -/
structure TgUpdate where
  channel_post : Option TgMessage
deriving DecidableEq, Repr

/-- Python `message.video or message.document` (objects are truthy,
`None` is falsy). -/
def pyFileOr (a b : Option TgFile) : Option TgFile :=
  match a with
  | some f => some f
  | none => b

/-- The messages `handle_new_post` sends back to the channel via
`bot.send_message`, abstracted by kind (all are sent as replies to the
triggering message). -/
inductive BotMsg
  | formatError (chat_id : Int) (reply_to : Nat)
  | tmdbNotFound (chat_id : Int) (reply_to : Nat) (title year : String)
  | postSuccess (chat_id : Int) (reply_to : Nat) (title : Option String) (post_url : String)
  | dbError (chat_id : Int) (reply_to : Nat) (err : String)
deriving DecidableEq, Repr

/-- Configuration read from the environment (lines 26-49):
`TARGET_CHANNEL_ID` is `none` when the variable is missing or non-numeric. -/
structure BotConfig where
  TARGET_CHANNEL_ID : Option Int
  WEBSITE_URL : String
deriving Repr

/-- Environment for one ingestion run: the TMDB lookup outcome and the
outcome of `movies.insert_one` (`.ok oid` gives the store-assigned `_id`;
`.error` models a raised exception, caught at line 164). -/
structure IngestEnv where
  tmdb : String → String → Option TmdbDetails
  insert_result : Except String Nat

/-- `handle_new_post` (lines 136-165) as a transformer of the `movies`
collection, also returning the list of channel notifications sent.
`bot.send_message` itself is modelled as an infallible effect. -/
def handle_new_post (cfg : BotConfig) (env : IngestEnv) (u : TgUpdate)
    (db : List MovieDoc) : List MovieDoc × List BotMsg :=
  match u.channel_post with
  | none => (db, [])
  | some message =>
    if some message.chat_id ≠ cfg.TARGET_CHANNEL_ID then (db, [])
    else
      match pyFileOr message.video message.document with
      | none => (db, [])
      | some file =>
        match file.file_name with
        | none => (db, [])
        | some fname =>
          if fname = "" then (db, [])
          else
            -- `if not title:` treats both `None` and `""` as failure
            match parse_filename fname with
            | none => (db, [.formatError message.chat_id message.message_id])
            | some (title, year) =>
              if title = "" then (db, [.formatError message.chat_id message.message_id])
              else
                match env.tmdb title year with
                | none => (db, [.tmdbNotFound message.chat_id message.message_id title year])
                | some d =>
                  match env.insert_result with
                  | .ok oid =>
                    let doc : MovieDoc :=
                      { oid := oid
                        title := d.title
                        type := d.type
                        poster := d.poster.getD PLACEHOLDER_POSTER
                        backdrop := d.backdrop
                        overview := d.overview
                        release_date := d.release_date
                        genres := d.genres
                        vote_average := d.vote_average
                        telegram_ref := some ⟨message.chat_id, message.message_id⟩ }
                    (db ++ [doc],
                      [.postSuccess message.chat_id message.message_id d.title
                        (cfg.WEBSITE_URL ++ "/movie/" ++ toString oid)])
                  | .error e =>
                    (db, [.dbError message.chat_id message.message_id e])

/-! ### Link resolver (`generate_fresh_link_async`, lines 167-184)

The Pyrogram client calls are an environment; the resolver returns the list
of client calls it performed, in order, next to its result.  The lazy
`pyro_bot.start()` (lines 169-170) happens before the `try` block, so a
failure there escapes as an exception: the overall result type is `Except`.
Inside the `try`/`except` blocks no exception can escape. -/

/-- The value the resolver hands to its caller: a fresh temporary URL
(primary path) or an in-memory buffer (fallback path). -/
inductive Resolved
  | url (s : String)
  | buffer (b : String)
deriving DecidableEq, Repr

instance {ε α : Type} [DecidableEq ε] [DecidableEq α] : DecidableEq (Except ε α) := fun x y =>
  match x, y with
  | .ok a, .ok b =>
    if h : a = b then .isTrue (by rw [h]) else .isFalse (by intro hh; cases hh; exact h rfl)
  | .error a, .error b =>
    if h : a = b then .isTrue (by rw [h]) else .isFalse (by intro hh; cases hh; exact h rfl)
  | .ok _, .error _ => .isFalse (by intro hh; cases hh)
  | .error _, .ok _ => .isFalse (by intro hh; cases hh)

/-- One Pyrogram client call together with its outcome.  `forwardCall`'s
`.ok` value is a handle for the forwarded copy; `downloadCall`/`deleteCall`
act on that handle. -/
inductive TgCall
  | getDownloadLinkCall (chat_id : Int) (msg_id : Nat) (r : Except String String)
  | forwardCall (chat_id : Int) (msg_id : Nat) (r : Except String Nat)
  | downloadCall (handle : Nat) (r : Except String String)
  | deleteCall (handle : Nat) (r : Except String Unit)
deriving DecidableEq, Repr

/-- Environment for the Pyrogram client calls. -/
structure LinkEnv where
  start : Except String Unit
  get_download_link : Int → Nat → Except String String
  forward_messages : Int → Nat → Except String Nat
  download : Nat → Except String String
  delete : Nat → Except String Unit

/-- Process-wide application state: the document store and the
lazily-started Pyrogram client flag (`pyro_bot.is_initialized`). -/
structure AppState where
  db : SiteDB
  clientStarted : Bool
deriving Repr

/-- `generate_fresh_link_async` (lines 167-184).  Returns the resolution
outcome (`none` = unavailable) and the trace of client calls, or `.error`
when the lazy client start raised; plus the updated process state. -/
def generate_fresh_link_async (env : LinkEnv) (s : AppState) (chat_id : Int)
    (msg_id : Nat) : Except String (Option Resolved × List TgCall) × AppState :=
  match (if s.clientStarted then Except.ok () else env.start) with
  | .error e => (.error e, s)
  | .ok _ =>
    let s' : AppState := { s with clientStarted := true }
    match env.get_download_link chat_id msg_id with
    | .ok link =>
      (.ok (some (.url link), [.getDownloadLinkCall chat_id msg_id (.ok link)]), s')
    | .error e =>
      let tr0 := [TgCall.getDownloadLinkCall chat_id msg_id (.error e)]
      match env.forward_messages chat_id msg_id with
      | .error e2 => (.ok (none, tr0 ++ [.forwardCall chat_id msg_id (.error e2)]), s')
      | .ok fm =>
        let tr1 := tr0 ++ [TgCall.forwardCall chat_id msg_id (.ok fm)]
        match env.download fm with
        | .error e2 => (.ok (none, tr1 ++ [.downloadCall fm (.error e2)]), s')
        | .ok buf =>
          let tr2 := tr1 ++ [TgCall.downloadCall fm (.ok buf)]
          match env.delete fm with
          | .error e2 => (.ok (none, tr2 ++ [.deleteCall fm (.error e2)]), s')
          | .ok _ =>
            (.ok (some (.buffer buf), tr2 ++ [.deleteCall fm (.ok ())]), s')

/-- The outcome of the fallback method alone (forward, download, delete):
`none` when any of its three calls fails. -/
def fallback_result (env : LinkEnv) (chat_id : Int) (msg_id : Nat) : Option String :=
  match env.forward_messages chat_id msg_id with
  | .error _ => none
  | .ok fm =>
    match env.download fm with
    | .error _ => none
    | .ok buf =>
      match env.delete fm with
      | .error _ => none
      | .ok _ => some buf

/-! ### Catalogue query layer (`Pagination` / `get_paginated_content`,
lines 1072-1090) -/

/-- `Pagination` (lines 1072-1084). -/
structure Pagination where
  page : Nat
  per_page : Nat
  total_count : Nat
deriving DecidableEq, Repr

/-- `total_pages` (line 1076): `math.ceil(total_count / per_page)`, exact
ceiling division on naturals. -/
def Pagination.total_pages (p : Pagination) : Nat :=
  (p.total_count + p.per_page - 1) / p.per_page

/-- `has_prev` (line 1078). -/
def Pagination.has_prev (p : Pagination) : Bool := 1 < p.page

/-- `has_next` (line 1080). -/
def Pagination.has_next (p : Pagination) : Bool := p.page < p.total_pages

/-- `prev_num` (line 1082). -/
def Pagination.prev_num (p : Pagination) : Nat := p.page - 1

/-- `next_num` (line 1084). -/
def Pagination.next_num (p : Pagination) : Nat := p.page + 1

/-- `movies.find(query_filter).sort('_id', -1)`: the store returns the
matching documents in descending `_id` order; since the collection list is
kept in insertion order (ascending `_id`), that is the reverse of the
filtered list. -/
def findSortedDesc (db : List MovieDoc) (q : MovieDoc → Bool) : List MovieDoc :=
  (db.filter q).reverse

/-- `get_paginated_content` (lines 1086-1090); `page` is 1-based. -/
def get_paginated_content (db : List MovieDoc) (q : MovieDoc → Bool) (page : Nat) :
    List MovieDoc × Pagination :=
  let skip := (page - 1) * ITEMS_PER_PAGE
  let total_count := (db.filter q).length
  (((findSortedDesc db q).drop skip).take ITEMS_PER_PAGE,
    ⟨page, ITEMS_PER_PAGE, total_count⟩)

/-! ### Webhook endpoint (`webhook_handler`, lines 1093-1098) -/

/-- `webhook_handler` (lines 1093-1098): `payload` is `some u` when the POST
body is JSON parsing to update `u`, `none` when `request.is_json` is false.
Returns the HTTP response `('ok', 200)` next to the ingestion outcome. -/
def webhook_handler (cfg : BotConfig) (env : IngestEnv) (payload : Option TgUpdate)
    (db : List MovieDoc) : (String × Nat) × (List MovieDoc × List BotMsg) :=
  match payload with
  | some u => (("ok", 200), handle_new_post cfg env u db)
  | none => (("ok", 200), (db, []))

/-! ### Admin authentication (`check_auth` / `authenticate` / `requires_auth`,
lines 62-75) -/

/-- A parsed HTTP Basic Authorization header (`request.authorization`). -/
structure AuthCreds where
  username : String
  password : String
deriving DecidableEq, Repr

/-- An HTTP response with status and headers. -/
structure HttpResponse where
  body : String
  status : Nat
  headers : List (String × String)
deriving DecidableEq, Repr

/-- `check_auth` (lines 62-63); the admin credentials come from the
environment (lines 28-29). -/
def check_auth (admin_username admin_password username password : String) : Bool :=
  username == admin_username && password == admin_password

/-- `authenticate` (lines 65-66). -/
def authenticate : HttpResponse :=
  { body := "Could not verify access."
    status := 401
    headers := [("WWW-Authenticate", "Basic realm=\"Login Required\"")] }

/-- `requires_auth` (lines 68-75): the decorator around a protected handler,
here a transformer of the document store. -/
def requires_auth (admin_username admin_password : String)
    (f : SiteDB → HttpResponse × SiteDB) (auth : Option AuthCreds)
    (db : SiteDB) : HttpResponse × SiteDB :=
  match auth with
  | none => (authenticate, db)
  | some a =>
    if check_auth admin_username admin_password a.username a.password then f db
    else (authenticate, db)

/-! ### Public detail endpoint (`movie_detail`, lines 1124-1134) -/

/-- Hexadecimal digit (the characters `bson.ObjectId` accepts). -/
def isHexDigit (c : Char) : Bool :=
  ('0' ≤ c && c ≤ '9') || ('a' ≤ c && c ≤ 'f') || ('A' ≤ c && c ≤ 'F')

/-- Numeric value of a hexadecimal digit. -/
def hexVal (c : Char) : Nat :=
  if '0' ≤ c && c ≤ '9' then c.toNat - 48
  else if 'a' ≤ c && c ≤ 'f' then c.toNat - 87
  else c.toNat - 55

/-- `bson.objectid.ObjectId(s)` on a string argument: accepts exactly the
24-character hexadecimal strings (raising `InvalidId` otherwise, modelled as
`none`); the accepted value is identified with its numeric value, matching
`MovieDoc.oid`. -/
def ObjectId (s : String) : Option Nat :=
  if s.length = 24 && s.data.all isHexDigit then
    some (s.data.foldl (fun n c => 16 * n + hexVal c) 0)
  else none

/-- Models the rendered detail page (`render_template_string(detail_html, ...)`;
the HTML layer is out of scope). -/
def renderDetail (m : MovieDoc) : String :=
  "detail page for oid " ++ toString m.oid

/-- `movie_detail` (lines 1124-1134): the whole body is wrapped in
`try/except`, so a malformed id (an `ObjectId` constructor exception) lands
in the same `("Content not found", 404)` branch as a missing document. -/
def movie_detail (db : List MovieDoc) (movie_id : String) : String × Nat :=
  match ObjectId movie_id with
  | none => ("Content not found", 404)
  | some oid =>
    match db.find? (fun d => d.oid == oid) with
    | none => ("Content not found", 404)
    | some m => (renderDetail m, 200)

/-! ### Concrete fixtures (used by witnesses and counterexamples) -/

/-- An empty document store. -/
def emptyDB : SiteDB := { movies := [], settings := none, categories := [], requests := [] }

/-- A process state with an already-started client and empty store. -/
def state0 : AppState := { db := emptyDB, clientStarted := true }

/-- A link environment in which both resolution methods fail outright. -/
def envAllFail : LinkEnv :=
  { start := .ok ()
    get_download_link := fun _ _ => .error "primary down"
    forward_messages := fun _ _ => .error "forward down"
    download := fun _ => .error "download failed"
    delete := fun _ => .error "delete failed" }

/-- A link environment in which the primary method fails, forwarding and
downloading succeed, but deleting the forwarded copy raises. -/
def envDeleteFails : LinkEnv :=
  { start := .ok ()
    get_download_link := fun _ _ => .error "primary down"
    forward_messages := fun _ _ => .ok 5
    download := fun _ => .ok "bytes"
    delete := fun _ => .error "delete failed" }

/-- A link environment in which the primary method fails and the whole
fallback path succeeds. -/
def envHappyFallback : LinkEnv :=
  { start := .ok ()
    get_download_link := fun _ _ => .error "primary down"
    forward_messages := fun _ _ => .ok 7
    download := fun _ => .ok "bytes"
    delete := fun _ => .ok () }

/-- A TMDB environment whose search returns only person results. -/
def tmdbEnvPersons : TmdbEnv :=
  { multiSearch := fun _ _ => .ok [⟨"person", 1⟩, ⟨"person", 2⟩]
    details := fun _ _ => .error "unreached" }

/-- Normalized TMDB details for the Inception scenario. -/
def inceptionDetails : TmdbDetails :=
  { title := some "Inception"
    poster := some "https://image.tmdb.org/t/p/w500/ip.jpg"
    backdrop := none
    overview := some "A thief who steals corporate secrets."
    release_date := some "2010-07-16"
    genres := ["Action", "Science Fiction"]
    vote_average := none
    type := "movie" }

/-- A bot configuration with a configured source channel. -/
def cfgW : BotConfig := { TARGET_CHANNEL_ID := some (-100), WEBSITE_URL := "https://site" }

/-- An ingestion environment that knows Inception (2010) and whose insert
succeeds with `_id` 99. -/
def ingestEnvW : IngestEnv :=
  { tmdb := fun t y => if t = "Inception" && y = "2010" then some inceptionDetails else none
    insert_result := .ok 99 }

/-- A channel post carrying the video `Inception (2010).mkv`. -/
def msgW : TgMessage :=
  { chat_id := -100
    message_id := 42
    video := some ⟨some "Inception (2010).mkv"⟩
    document := none }

/-- The update delivering `msgW`. -/
def updW : TgUpdate := { channel_post := some msgW }

/-- A minimal movie document with insertion identifier `n`. -/
def mkDoc (n : Nat) : MovieDoc :=
  { oid := n
    title := some ("movie " ++ toString n)
    type := "movie"
    poster := ""
    backdrop := none
    overview := none
    release_date := none
    genres := []
    vote_average := none }

/-- A small concrete catalogue (ascending insertion identifiers). -/
def dbW3 : List MovieDoc := [mkDoc 0, mkDoc 1, mkDoc 2]

/-- The `/movies` listing filter. -/
def qMovie : MovieDoc → Bool := fun d => d.type == "movie"

/-! ## Theorems -/

/-! ### Shared helper lemmas -/

lemma find?_eq_some_split {α : Type} (p : α → Bool) :
    ∀ {l : List α} {a : α}, l.find? p = some a →
      ∃ l₁ l₂, l = l₁ ++ a :: l₂ ∧ (∀ x ∈ l₁, p x = false) ∧ p a = true := by
  intro l
  induction l with
  | nil => intro a h; simp at h
  | cons b t ih =>
    intro a h
    by_cases hb : p b
    · rw [List.find?_cons_of_pos _ hb] at h
      cases h
      exact ⟨[], t, rfl, by simp, hb⟩
    · rw [List.find?_cons_of_neg _ (by simpa using hb)] at h
      obtain ⟨l₁, l₂, rfl, h1, h2⟩ := ih h
      refine ⟨b :: l₁, l₂, rfl, ?_, h2⟩
      intro x hx
      rcases List.mem_cons.mp hx with rfl | hx2
      · simpa using hb
      · exact h1 x hx2

/-! ### Helper lemmas about the filename parser -/

lemma tryYear_all_space (ws y rest : List Char) (hws : ∀ c ∈ ws, pySpace c = true)
    (hy : y.length = 4) (hd : ∀ c ∈ y, pyDigit c = true) :
    tryYear (ws ++ '(' :: (y ++ ')' :: rest)) = some y := by
  rcases y with _ | ⟨d1, _ | ⟨d2, _ | ⟨d3, _ | ⟨d4, _ | ⟨d5, tl⟩⟩⟩⟩⟩ <;> simp at hy
  have hws' : ws.dropWhile pySpace = [] := List.dropWhile_eq_nil_iff.mpr hws
  have hdw : (ws ++ '(' :: ([d1, d2, d3, d4] ++ ')' :: rest)).dropWhile pySpace =
      '(' :: ([d1, d2, d3, d4] ++ ')' :: rest) := by
    rw [List.dropWhile_append, hws']
    simp [List.dropWhile_cons, pySpace]
  simp only [List.cons_append, List.nil_append] at hdw
  simp [tryYear, hdw, hd d1 (by simp), hd d2 (by simp), hd d3 (by simp), hd d4 (by simp)]

lemma tryYear_not_paren (l tail : List Char) (hnp : ∀ x ∈ l, x ≠ '(')
    (hns : ¬ ∀ x ∈ l, pySpace x = true) :
    tryYear (l ++ tail) = none := by
  rcases hdw : l.dropWhile pySpace with _ | ⟨d, r⟩
  · exact absurd (List.dropWhile_eq_nil_iff.mp hdw) hns
  · have hd : d ∈ l := (List.dropWhile_sublist pySpace).subset
      (hdw ▸ List.mem_cons_self d r)
    have hdw2 : (l ++ tail).dropWhile pySpace = d :: (r ++ tail) := by
      rw [List.dropWhile_append, hdw]
      simp
    simp [tryYear, hdw2, hnp d hd]

lemma rdropWhile_cons_not_all (p : Char → Bool) (c : Char) (l : List Char)
    (h : ¬ ∀ x ∈ c :: l, p x = true) :
    (c :: l).rdropWhile p = c :: l.rdropWhile p := by
  by_cases hall : ∀ x ∈ l, p x = true
  · have hc : p c = false := by
      rcases hb : p c with _ | _
      · rfl
      · refine absurd (fun x hx => ?_) h
        rcases List.mem_cons.mp hx with rfl | hx2
        · exact hb
        · exact hall x hx2
    have hl : l.rdropWhile p = [] := List.rdropWhile_eq_nil_iff.mpr hall
    have hrev : l.reverse.dropWhile p = [] :=
      List.dropWhile_eq_nil_iff.mpr fun x hx => hall x (List.mem_reverse.mp hx)
    rw [hl, List.rdropWhile, List.reverse_cons, List.dropWhile_append, hrev]
    simp [List.dropWhile_cons, hc]
  · have hne : l.reverse.dropWhile p ≠ [] := by
      rw [Ne, List.dropWhile_eq_nil_iff]
      intro hcon
      exact hall fun x hx => hcon x (List.mem_reverse.mpr hx)
    rw [List.rdropWhile, List.rdropWhile, List.reverse_cons, List.dropWhile_append]
    rcases hdd : l.reverse.dropWhile p with _ | ⟨d, r⟩
    · exact absurd hdd hne
    · simp

lemma dropWhile_rdropWhile_comm (p : Char → Bool) : ∀ l : List Char,
    (l.rdropWhile p).dropWhile p = (l.dropWhile p).rdropWhile p := by
  intro l
  induction l with
  | nil => simp [List.rdropWhile]
  | cons c l ih =>
    by_cases hall : ∀ x ∈ c :: l, p x = true
    · rw [List.rdropWhile_eq_nil_iff.mpr hall, List.dropWhile_eq_nil_iff.mpr hall]
      simp [List.rdropWhile]
    · rw [rdropWhile_cons_not_all p c l hall]
      by_cases hc : p c = true
      · simp [List.dropWhile_cons, hc, ih]
      · have hcf : p c = false := by simpa using hc
        rw [List.dropWhile_cons, List.dropWhile_cons, hcf]
        simp only [Bool.false_eq_true, if_false]
        exact (rdropWhile_cons_not_all p c l hall).symm

lemma pyStrip_rdropWhile (l : List Char) :
    pyStrip (l.rdropWhile pySpace) = pyStrip l := by
  rw [pyStrip, pyStrip, dropWhile_rdropWhile_comm, List.rdropWhile_idempotent]

lemma searchTitleYear_concat (y rest : List Char) (hy : y.length = 4)
    (hd : ∀ c ∈ y, pyDigit c = true) :
    ∀ pre : List Char, (∀ c ∈ pre, c ≠ '(' ∧ c ≠ '\n') →
      searchTitleYear (pre ++ '(' :: (y ++ ')' :: rest)) =
        some (pre.rdropWhile pySpace, y) := by
  intro pre
  induction pre with
  | nil =>
    intro _
    have ht := tryYear_all_space [] y rest (by simp) hy hd
    simp only [List.nil_append] at ht ⊢
    simp [searchTitleYear, ht, List.rdropWhile_nil]
  | cons c pre ih =>
    intro h
    have hc := h c (List.mem_cons_self c pre)
    by_cases hall : ∀ x ∈ c :: pre, pySpace x = true
    · have ht := tryYear_all_space (c :: pre) y rest hall hy hd
      have hrn : (c :: pre).rdropWhile pySpace = [] := List.rdropWhile_eq_nil_iff.mpr hall
      simp only [List.cons_append] at ht ⊢
      simp [searchTitleYear, ht, hrn]
    · have ht := tryYear_not_paren (c :: pre) ('(' :: (y ++ ')' :: rest))
        (fun x hx => (h x hx).1) hall
      have hrec := ih fun x hx => h x (List.mem_cons_of_mem c hx)
      have hrd := rdropWhile_cons_not_all pySpace c pre hall
      simp only [List.cons_append] at ht ⊢
      simp [searchTitleYear, ht, hc.2, hrec, hrd]

lemma searchTitleYear_no_paren : ∀ cs : List Char, (∀ c ∈ cs, c ≠ '(') →
    searchTitleYear cs = none := by
  intro cs
  induction cs with
  | nil => intro _; simp [searchTitleYear, tryYear]
  | cons c rest ih =>
    intro h
    have ht : tryYear (c :: rest) = none := by
      rcases hdw : (c :: rest).dropWhile pySpace with _ | ⟨d, r⟩
      · simp [tryYear, hdw]
      · have hd : d ∈ c :: rest := (List.dropWhile_sublist pySpace).subset
          (hdw ▸ List.mem_cons_self d r)
        simp [tryYear, hdw, h d hd]
    by_cases hnl : c = '\n'
    · subst hnl
      simp [searchTitleYear, ht]
    · simp [searchTitleYear, ht, hnl, ih fun x hx => h x (List.mem_cons_of_mem c hx)]

/-- Chopping a list into `⌈length/per⌉` consecutive chunks of size `per` and
concatenating them gives the list back. -/
lemma flatten_chunks {α : Type} (per : Nat) (hper : 0 < per) :
    ∀ (n : Nat) (l : List α), l.length = n →
      ((List.range ((l.length + per - 1) / per)).map
        (fun i => (l.drop (i * per)).take per)).flatten = l := by
  intro n
  induction n using Nat.strong_induction_on with
  | _ n ih =>
    intro l hl
    rcases l with _ | ⟨a, t⟩
    · have h0 : ((List.length ([] : List α)) + per - 1) / per = 0 := by
        simp only [List.length_nil, Nat.zero_add]
        exact Nat.div_eq_of_lt (by omega)
      rw [h0]
      rfl
    · have hlen : 0 < (a :: t).length := by simp
      have harith : ((a :: t).length + per - 1) / per =
          (((a :: t).length - per) + per - 1) / per + 1 := by
        rcases le_or_lt per (a :: t).length with hge | hlt
        · have h1 : (a :: t).length + per - 1 = ((a :: t).length - per + per - 1) + per := by
            omega
          rw [h1, Nat.add_div_right _ hper]
        · have h1 : (a :: t).length - per = 0 := by omega
          have h2 : (a :: t).length + per - 1 = ((a :: t).length - 1) + per := by omega
          rw [h1, h2, Nat.add_div_right _ hper,
            Nat.div_eq_of_lt (show (a :: t).length - 1 < per by omega),
            Nat.div_eq_of_lt (show 0 + per - 1 < per by omega)]
      have hdlen : ((a :: t).drop per).length = (a :: t).length - per := by
        simp [List.length_drop]
      have hih := ih (((a :: t).drop per).length)
        (by rw [hdlen, ← hl]; omega) ((a :: t).drop per) rfl
      rw [hdlen] at hih
      rw [harith, List.range_succ_eq_map, List.map_cons, List.flatten_cons,
        Nat.zero_mul, List.drop_zero, List.map_map]
      have hfun : ((fun i => ((a :: t).drop (i * per)).take per) ∘ Nat.succ) =
          (fun i => (((a :: t).drop per).drop (i * per)).take per) := by
        funext i
        simp only [Function.comp]
        rw [List.drop_drop]
        congr 2
        rw [Nat.succ_mul, Nat.add_comm]
      rw [hfun, hih, List.take_append_drop]

/-! ### C2: the filename parser (corrected — strip happens before separator
replacement, so a separator adjacent to the year leaves a trailing space) -/

/-- Counterexample to C2 as stated: `"The.Matrix.(1999).1080p.mkv"` parses to
title `"The Matrix "` — with a trailing space, because the code strips
whitespace *before* replacing dots with spaces — not to `"The Matrix"`. -/
theorem parse_filename_matrix_trailing_space :
    parse_filename "The.Matrix.(1999).1080p.mkv" = some ("The Matrix ", "1999") ∧
    parse_filename "The.Matrix.(1999).1080p.mkv" ≠ some ("The Matrix", "1999") := by
  exact ⟨by decide, by decide⟩

/-- C2 (amended): for every filename of the form
`Name ++ "(" ++ YYYY ++ ")" ++ rest` where `Name` contains no parenthesis or
newline and `YYYY` is four digits, the parser returns the year together with
`Name` first trimmed of surrounding whitespace and then with dots and
underscores replaced by spaces (so a separator adjacent to the year
parenthesis leaves a trailing space in the title); filenames containing no
opening parenthesis do not match; the Matrix example yields title
`"The Matrix "` (with trailing space) and year `"1999"`. -/
theorem parse_filename_strip_before_replace :
    (∀ pre y rest : List Char,
      (∀ c ∈ pre, c ≠ '(' ∧ c ≠ '\n') →
      y.length = 4 → (∀ c ∈ y, pyDigit c = true) →
      parse_filename ⟨pre ++ '(' :: (y ++ ')' :: rest)⟩ =
        some (⟨pyReplace '_' ' ' (pyReplace '.' ' ' (pyStrip pre))⟩, ⟨y⟩)) ∧
    (∀ s : String, (∀ c ∈ s.data, c ≠ '(') → parse_filename s = none) ∧
    parse_filename "The.Matrix.(1999).1080p.mkv" = some ("The Matrix ", "1999") := by
  refine ⟨?_, ?_, by decide⟩
  · intro pre y rest hpre hy hd
    have hs := searchTitleYear_concat y rest hy hd pre hpre
    simp [parse_filename, hs, pyStrip_rdropWhile]
  · intro s h
    simp [parse_filename, searchTitleYear_no_paren s.data h]

/-- Witness for C2 (amended): `"A.B (2014).mkv"`-shaped input — the name
part `['A', '.', 'B', ' ']` is stripped to `['A', '.', 'B']` and then
dot-replaced, giving title `"A B"` and year `"2014"`; a filename without
parentheses does not match. -/
theorem parse_filename_strip_before_replace_witness :
    parse_filename ⟨['A', '.', 'B', ' '] ++ '(' :: (['2', '0', '1', '4'] ++ ')' :: ['.', 'm', 'k', 'v'])⟩ =
      some (⟨pyReplace '_' ' ' (pyReplace '.' ' ' (pyStrip ['A', '.', 'B', ' ']))⟩,
        ⟨['2', '0', '1', '4']⟩) ∧
    (⟨pyReplace '_' ' ' (pyReplace '.' ' ' (pyStrip ['A', '.', 'B', ' ']))⟩ : String) = "A B" ∧
    parse_filename "nineteen99.mkv" = none :=
  ⟨parse_filename_strip_before_replace.1 ['A', '.', 'B', ' '] ['2', '0', '1', '4']
      ['.', 'm', 'k', 'v'] (by decide) (by decide) (by decide),
    by decide,
    parse_filename_strip_before_replace.2.1 "nineteen99.mkv" (by decide)⟩

/-! ### C3: pagination reports the ceiling page count and the pages cover the
matching items exactly once, most recent first -/

/-- C3: For every query filter: the reported `total_pages` is the ceiling of
the matching count divided by the page size; concatenating pages
`1, 2, ..., total_pages` yields exactly the matching documents in descending
insertion order (so, with monotone insertion identifiers, every matching item
appears exactly once, most recently inserted first). -/
theorem get_paginated_content_covers (db : List MovieDoc) (q : MovieDoc → Bool)
    (hmono : (db.map MovieDoc.oid).Sorted (· < ·)) :
    (∀ page, (get_paginated_content db q page).2.total_pages =
      (db.filter q).length ⌈/⌉ ITEMS_PER_PAGE) ∧
    ((List.range ((get_paginated_content db q 1).2.total_pages)).map
        (fun i => (get_paginated_content db q (i + 1)).1)).flatten =
      findSortedDesc db q ∧
    ((findSortedDesc db q).map MovieDoc.oid).Sorted (· > ·) := by
  refine ⟨fun _ => rfl, ?_, ?_⟩
  · have hlen : (findSortedDesc db q).length = (db.filter q).length := by
      simp [findSortedDesc]
    have hmain := flatten_chunks ITEMS_PER_PAGE (by decide)
      (findSortedDesc db q).length (findSortedDesc db q) rfl
    rw [hlen] at hmain
    have hpages : (get_paginated_content db q 1).2.total_pages =
        ((db.filter q).length + ITEMS_PER_PAGE - 1) / ITEMS_PER_PAGE := rfl
    rw [hpages]
    have hpage : ∀ i : Nat, (get_paginated_content db q (i + 1)).1 =
        ((findSortedDesc db q).drop (i * ITEMS_PER_PAGE)).take ITEMS_PER_PAGE := by
      intro i
      simp [get_paginated_content]
    calc ((List.range (((db.filter q).length + ITEMS_PER_PAGE - 1) / ITEMS_PER_PAGE)).map
            (fun i => (get_paginated_content db q (i + 1)).1)).flatten
        = ((List.range (((db.filter q).length + ITEMS_PER_PAGE - 1) / ITEMS_PER_PAGE)).map
            (fun i => ((findSortedDesc db q).drop (i * ITEMS_PER_PAGE)).take
              ITEMS_PER_PAGE)).flatten := by
          rw [List.map_congr_left (fun i _ => hpage i)]
      _ = findSortedDesc db q := hmain
  · rw [findSortedDesc, List.map_reverse]
    have hsub : ((db.filter q).map MovieDoc.oid).Sublist (db.map MovieDoc.oid) :=
      (List.filter_sublist db).map MovieDoc.oid
    have hpair : List.Pairwise (· < ·) ((db.filter q).map MovieDoc.oid) :=
      List.Pairwise.sublist hsub hmono
    exact (List.pairwise_reverse).mpr hpair

/-- Witness for C3: a three-document catalogue, filtered to movies, is
covered by its single page in descending insertion order. -/
theorem get_paginated_content_covers_witness :
    (∀ page, (get_paginated_content dbW3 qMovie page).2.total_pages =
      (dbW3.filter qMovie).length ⌈/⌉ ITEMS_PER_PAGE) ∧
    ((List.range ((get_paginated_content dbW3 qMovie 1).2.total_pages)).map
        (fun i => (get_paginated_content dbW3 qMovie (i + 1)).1)).flatten =
      findSortedDesc dbW3 qMovie ∧
    ((findSortedDesc dbW3 qMovie).map MovieDoc.oid).Sorted (· > ·) :=
  get_paginated_content_covers dbW3 qMovie (by decide)

/-! ### C6: link resolution does not touch the document store -/

/-- C6: Link resolution never modifies the catalogue: for every channel
reference and every environment, `generate_fresh_link_async` (whether it
succeeds via the primary method, via the fallback, or fails, including a
client-start failure) leaves the `movies`, `categories`, `settings` and
`requests` collections unchanged. -/
theorem generate_fresh_link_preserves_db (env : LinkEnv) (s : AppState)
    (chat_id : Int) (msg_id : Nat) :
    ((generate_fresh_link_async env s chat_id msg_id).2).db.movies = s.db.movies ∧
    ((generate_fresh_link_async env s chat_id msg_id).2).db.categories = s.db.categories ∧
    ((generate_fresh_link_async env s chat_id msg_id).2).db.settings = s.db.settings ∧
    ((generate_fresh_link_async env s chat_id msg_id).2).db.requests = s.db.requests := by
  have hdb : ((generate_fresh_link_async env s chat_id msg_id).2).db = s.db := by
    rcases h0 : (if s.clientStarted then Except.ok () else env.start) with e | u
    · simp [generate_fresh_link_async, h0]
    · rcases h1 : env.get_download_link chat_id msg_id with e | link
      · rcases h2 : env.forward_messages chat_id msg_id with e2 | fm
        · simp [generate_fresh_link_async, h0, h1, h2]
        · rcases h3 : env.download fm with e2 | buf
          · simp [generate_fresh_link_async, h0, h1, h2, h3]
          · rcases h4 : env.delete fm with e2 | u2 <;>
              simp [generate_fresh_link_async, h0, h1, h2, h3, h4]
      · simp [generate_fresh_link_async, h0, h1]
  exact ⟨by rw [hdb], by rw [hdb], by rw [hdb], by rw [hdb]⟩

/-! ### C1: primary failure triggers the fallback; both failing yields `none`,
not an exception -/

/-- C1: For every channel reference, once the client is usable, the resolver
never lets an exception escape (its result is `.ok`); whenever the primary
method raises, the fallback is attempted (a `forward_messages` call appears
in the trace) before giving up, and if the fallback also fails the resolver
returns the distinguishable `none` outcome. -/
theorem generate_fresh_link_fallback_then_unavailable (env : LinkEnv) (s : AppState)
    (chat_id : Int) (msg_id : Nat)
    (hstart : s.clientStarted = true ∨ env.start = .ok ()) :
    ∃ out tr, generate_fresh_link_async env s chat_id msg_id =
        (.ok (out, tr), { s with clientStarted := true }) ∧
      ∀ e, env.get_download_link chat_id msg_id = .error e →
        (∃ r, TgCall.forwardCall chat_id msg_id r ∈ tr) ∧
        (fallback_result env chat_id msg_id = none → out = none) := by
  have h0 : (if s.clientStarted then Except.ok () else env.start) = Except.ok () := by
    rcases hstart with h | h
    · simp [h]
    · cases hc : s.clientStarted <;> simp [h]
  rcases h1 : env.get_download_link chat_id msg_id with e | link
  · rcases h2 : env.forward_messages chat_id msg_id with e2 | fm
    · refine ⟨none, [.getDownloadLinkCall chat_id msg_id (.error e),
        .forwardCall chat_id msg_id (.error e2)],
        by simp [generate_fresh_link_async, h0, h1, h2], ?_⟩
      exact fun e' _ => ⟨⟨.error e2, by simp⟩, fun _ => rfl⟩
    · rcases h3 : env.download fm with e2 | buf
      · refine ⟨none, [.getDownloadLinkCall chat_id msg_id (.error e),
          .forwardCall chat_id msg_id (.ok fm), .downloadCall fm (.error e2)],
          by simp [generate_fresh_link_async, h0, h1, h2, h3], ?_⟩
        exact fun e' _ => ⟨⟨.ok fm, by simp⟩, fun _ => rfl⟩
      · rcases h4 : env.delete fm with e2 | u2
        · refine ⟨none, [.getDownloadLinkCall chat_id msg_id (.error e),
            .forwardCall chat_id msg_id (.ok fm), .downloadCall fm (.ok buf),
            .deleteCall fm (.error e2)],
            by simp [generate_fresh_link_async, h0, h1, h2, h3, h4], ?_⟩
          exact fun e' _ => ⟨⟨.ok fm, by simp⟩, fun _ => rfl⟩
        · refine ⟨some (.buffer buf), [.getDownloadLinkCall chat_id msg_id (.error e),
            .forwardCall chat_id msg_id (.ok fm), .downloadCall fm (.ok buf),
            .deleteCall fm (.ok ())],
            by simp [generate_fresh_link_async, h0, h1, h2, h3, h4], ?_⟩
          refine fun e' _ => ⟨⟨.ok fm, by simp⟩, fun hnone => ?_⟩
          simp [fallback_result, h2, h3, h4] at hnone
  · refine ⟨some (.url link), [.getDownloadLinkCall chat_id msg_id (.ok link)],
      by simp [generate_fresh_link_async, h0, h1], ?_⟩
    intro e' he
    cases he

/-- Witness for C1: with both methods failing, the resolver returns `.ok`
with outcome `none`, after attempting the fallback. -/
theorem generate_fresh_link_fallback_then_unavailable_witness :
    ∃ out tr, generate_fresh_link_async envAllFail state0 1 2 =
        (.ok (out, tr), { state0 with clientStarted := true }) ∧
      ∀ e, envAllFail.get_download_link 1 2 = .error e →
        (∃ r, TgCall.forwardCall 1 2 r ∈ tr) ∧
        (fallback_result envAllFail 1 2 = none → out = none) :=
  generate_fresh_link_fallback_then_unavailable envAllFail state0 1 2 (Or.inl rfl)

/-! ### C5: the metadata client picks the first movie/tv result and returns
`none` on any failure -/

/-- C5: `search_tmdb_for_bot` returns `none` when the search request raises
or when no result has media kind movie or tv; and whenever it returns a
record, the chosen search result is the first qualifying one (every earlier
result has a non-qualifying media kind), and its kind maps to
series/movie. -/
theorem search_tmdb_first_qualifying_or_none (env : TmdbEnv) (t y : String) :
    (∀ e, env.multiSearch t y = .error e → search_tmdb_for_bot env t y = none) ∧
    (∀ rs, env.multiSearch t y = .ok rs → (∀ r ∈ rs, isQualifying r = false) →
      search_tmdb_for_bot env t y = none) ∧
    (∀ rs r e, env.multiSearch t y = .ok rs → rs.find? isQualifying = some r →
      env.details r.media_type r.id = .error e → search_tmdb_for_bot env t y = none) ∧
    (∀ d, search_tmdb_for_bot env t y = some d →
      ∃ rs pre post r, env.multiSearch t y = .ok rs ∧ rs = pre ++ r :: post ∧
        (∀ x ∈ pre, isQualifying x = false) ∧ isQualifying r = true ∧
        d.type = (if r.media_type == "tv" then "series" else "movie")) := by
  refine ⟨?_, ?_, ?_, ?_⟩
  · intro e he
    simp [search_tmdb_for_bot, he]
  · intro rs hrs hnone
    have hfind : rs.find? isQualifying = none := by
      rw [List.find?_eq_none]
      intro r hr
      simp [hnone r hr]
    simp [search_tmdb_for_bot, hrs, hfind]
  · intro rs r e hrs hfind he
    simp [search_tmdb_for_bot, hrs, hfind, he]
  · intro d hd
    rcases hrs : env.multiSearch t y with e | rs
    · simp [search_tmdb_for_bot, hrs] at hd
    rcases hfind : rs.find? isQualifying with _ | r
    · simp [search_tmdb_for_bot, hrs, hfind] at hd
    rcases hdet : env.details r.media_type r.id with e | data
    · simp [search_tmdb_for_bot, hrs, hfind, hdet] at hd
    obtain ⟨pre, post, hsplit, hpre, hq⟩ := find?_eq_some_split isQualifying hfind
    refine ⟨rs, pre, post, r, rfl, hsplit, hpre, hq, ?_⟩
    simp only [search_tmdb_for_bot, hrs, hfind, hdet, Option.some.injEq] at hd
    rw [← hd]

/-- Witness for C5: a search returning only person results yields `none`. -/
theorem search_tmdb_first_qualifying_or_none_witness :
    search_tmdb_for_bot tmdbEnvPersons "The Matrix" "1999" = none :=
  (search_tmdb_first_qualifying_or_none tmdbEnvPersons "The Matrix" "1999").2.1
    [⟨"person", 1⟩, ⟨"person", 2⟩] rfl (by decide)

/-! ### C7: deletion of the forwarded copy (corrected) -/

/-- Counterexample to C7 as stated: when deleting the forwarded copy raises,
the resolution call returns (with outcome `none`) although the successfully
forwarded copy (handle 5) was never successfully deleted — the forwarded
copy outlives the call. -/
theorem generate_fresh_link_forward_copy_leak :
    (generate_fresh_link_async envDeleteFails state0 1 2).1 =
      .ok (none,
        [.getDownloadLinkCall 1 2 (.error "primary down"),
         .forwardCall 1 2 (.ok 5),
         .downloadCall 5 (.ok "bytes"),
         .deleteCall 5 (.error "delete failed")]) ∧
    TgCall.deleteCall 5 (.ok ()) ∉
      [TgCall.getDownloadLinkCall 1 2 (.error "primary down"),
       TgCall.forwardCall 1 2 (.ok 5),
       TgCall.downloadCall 5 (.ok "bytes"),
       TgCall.deleteCall 5 (.error "delete failed")] := by
  exact ⟨rfl, by decide⟩

/-- C7 (amended): in the fallback path, when the download into memory and
the subsequent delete call both succeed, the forwarded copy is deleted
immediately after its content is downloaded and before the resolution call
returns: the call trace is exactly primary-failure, forward, download,
delete, in that order; when the download or the delete raises, the resolver
returns `none` and the forwarded copy is not deleted. -/
theorem generate_fresh_link_deletes_forwarded_copy (env : LinkEnv) (s : AppState)
    (chat_id : Int) (msg_id : Nat) (e : String) (fm : Nat) (buf : String)
    (hstart : s.clientStarted = true ∨ env.start = .ok ())
    (hp : env.get_download_link chat_id msg_id = .error e)
    (hf : env.forward_messages chat_id msg_id = .ok fm)
    (hd : env.download fm = .ok buf)
    (hdel : env.delete fm = .ok ()) :
    generate_fresh_link_async env s chat_id msg_id =
      (.ok (some (.buffer buf),
        [.getDownloadLinkCall chat_id msg_id (.error e),
         .forwardCall chat_id msg_id (.ok fm),
         .downloadCall fm (.ok buf),
         .deleteCall fm (.ok ())]),
       { s with clientStarted := true }) := by
  have h0 : (if s.clientStarted then Except.ok () else env.start) = Except.ok () := by
    rcases hstart with h | h
    · simp [h]
    · cases hc : s.clientStarted <;> simp [h]
  simp [generate_fresh_link_async, h0, hp, hf, hd, hdel]

/-- Witness for C7 (amended): the happy fallback path deletes the forwarded
copy (handle 7) right after downloading it. -/
theorem generate_fresh_link_deletes_forwarded_copy_witness :
    generate_fresh_link_async envHappyFallback state0 1 2 =
      (.ok (some (.buffer "bytes"),
        [.getDownloadLinkCall 1 2 (.error "primary down"),
         .forwardCall 1 2 (.ok 7),
         .downloadCall 7 (.ok "bytes"),
         .deleteCall 7 (.ok ())]),
       { state0 with clientStarted := true }) :=
  generate_fresh_link_deletes_forwarded_copy envHappyFallback state0 1 2
    "primary down" 7 "bytes" (Or.inl rfl) rfl rfl rfl rfl

/-! ### C4: the ingestion handler inserts only after parsing and metadata
lookup succeed -/

/-- C4: For every incoming update: a post that is absent, not from the
configured source channel, or lacking a video/document attachment with a
non-empty filename is ignored silently (no insert, no message); a filename
that fails to parse produces a format-error notification and no insert; a
failed metadata lookup produces a not-found notification and no insert;
otherwise (with the store insert succeeding) exactly one record whose
channel reference matches the post's chat and message identifiers is
appended and a confirmation is sent. -/
theorem handle_new_post_state_machine (cfg : BotConfig) (env : IngestEnv)
    (u : TgUpdate) (db : List MovieDoc) :
    ((u.channel_post = none ∨
      (∃ m, u.channel_post = some m ∧ some m.chat_id ≠ cfg.TARGET_CHANNEL_ID) ∨
      (∃ m, u.channel_post = some m ∧ some m.chat_id = cfg.TARGET_CHANNEL_ID ∧
        (pyFileOr m.video m.document = none ∨
         ∃ f, pyFileOr m.video m.document = some f ∧
           (f.file_name = none ∨ f.file_name = some "")))) →
      handle_new_post cfg env u db = (db, [])) ∧
    (∀ m f fname, u.channel_post = some m → some m.chat_id = cfg.TARGET_CHANNEL_ID →
      pyFileOr m.video m.document = some f → f.file_name = some fname → fname ≠ "" →
      (parse_filename fname = none ∨ ∃ y, parse_filename fname = some ("", y)) →
      handle_new_post cfg env u db = (db, [.formatError m.chat_id m.message_id])) ∧
    (∀ m f fname t y, u.channel_post = some m → some m.chat_id = cfg.TARGET_CHANNEL_ID →
      pyFileOr m.video m.document = some f → f.file_name = some fname → fname ≠ "" →
      parse_filename fname = some (t, y) → t ≠ "" → env.tmdb t y = none →
      handle_new_post cfg env u db = (db, [.tmdbNotFound m.chat_id m.message_id t y])) ∧
    (∀ m f fname t y d oid, u.channel_post = some m → some m.chat_id = cfg.TARGET_CHANNEL_ID →
      pyFileOr m.video m.document = some f → f.file_name = some fname → fname ≠ "" →
      parse_filename fname = some (t, y) → t ≠ "" → env.tmdb t y = some d →
      env.insert_result = .ok oid →
      ∃ doc, handle_new_post cfg env u db =
          (db ++ [doc], [.postSuccess m.chat_id m.message_id d.title
            (cfg.WEBSITE_URL ++ "/movie/" ++ toString oid)]) ∧
        doc.telegram_ref = some ⟨m.chat_id, m.message_id⟩ ∧ doc.oid = oid ∧
        doc.title = d.title ∧ doc.type = d.type) := by
  refine ⟨?_, ?_, ?_, ?_⟩
  · rintro (h | ⟨m, hm, hch⟩ | ⟨m, hm, hch, hfile⟩)
    · simp [handle_new_post, h]
    · simp only [handle_new_post, hm]
      rw [if_pos hch]
    · rcases hfile with hnone | ⟨f, hf, hfn⟩
      · simp [handle_new_post, hm, hch, hnone]
      · rcases hfn with hfn | hfn <;> simp [handle_new_post, hm, hch, hf, hfn]
  · intro m f fname hm hch hf hfn hne hp
    rcases hp with hp | ⟨y, hp⟩ <;>
      simp [handle_new_post, hm, hch, hf, hfn, hne, hp]
  · intro m f fname t y hm hch hf hfn hne hp ht htm
    simp [handle_new_post, hm, hch, hf, hfn, hne, hp, ht, htm]
  · intro m f fname t y d oid hm hch hf hfn hne hp ht htm hins
    refine ⟨{ oid := oid, title := d.title, type := d.type,
              poster := d.poster.getD PLACEHOLDER_POSTER, backdrop := d.backdrop,
              overview := d.overview, release_date := d.release_date,
              genres := d.genres, vote_average := d.vote_average,
              telegram_ref := some ⟨m.chat_id, m.message_id⟩ }, ?_, rfl, rfl, rfl, rfl⟩
    simp [handle_new_post, hm, hch, hf, hfn, hne, hp, ht, htm, hins]

/-- Witness for C4: the spec's Inception scenario — posting
`Inception (2010).mkv` to the configured channel inserts one record with
kind `movie`, title `Inception` and the post's channel reference, and sends
a confirmation. -/
theorem handle_new_post_state_machine_witness :
    ∃ doc, handle_new_post cfgW ingestEnvW updW [] =
        ([] ++ [doc], [.postSuccess (-100) 42 (some "Inception")
          (cfgW.WEBSITE_URL ++ "/movie/" ++ toString 99)]) ∧
      doc.telegram_ref = some ⟨-100, 42⟩ ∧ doc.oid = 99 ∧
      doc.title = some "Inception" ∧ doc.type = "movie" :=
  (handle_new_post_state_machine cfgW ingestEnvW updW []).2.2.2 msgW
    ⟨some "Inception (2010).mkv"⟩ "Inception (2010).mkv" "Inception" "2010"
    inceptionDetails 99 rfl rfl rfl rfl (by decide) (by decide) (by decide) rfl rfl

/-! ### C8: webhook responds 200 ok unconditionally -/

/-- C8: The webhook endpoint responds HTTP 200 with body `ok` for every
payload (JSON or not) and every outcome of the ingestion handler; ingestion
errors surface as channel notifications, never in the HTTP response. -/
theorem webhook_responds_ok_unconditionally (cfg : BotConfig) (env : IngestEnv)
    (payload : Option TgUpdate) (db : List MovieDoc) :
    (webhook_handler cfg env payload db).1 = ("ok", 200) := by
  cases payload <;> rfl

/-! ### C9: admin endpoints reject missing or wrong credentials with 401 -/

/-- C9: For every request to an admin endpoint whose credentials are absent
or do not match the configured admin username and password, the response is
HTTP 401 with a `WWW-Authenticate` challenge header, the store is untouched,
and the protected handler is not executed (the outcome is the same for every
handler). -/
theorem requires_auth_rejects_bad_credentials (admin_u admin_p : String)
    (f g : SiteDB → HttpResponse × SiteDB) (auth : Option AuthCreds) (db : SiteDB)
    (h : auth = none ∨
      ∃ a, auth = some a ∧ check_auth admin_u admin_p a.username a.password = false) :
    (requires_auth admin_u admin_p f auth db).1.status = 401 ∧
    ("WWW-Authenticate", "Basic realm=\"Login Required\"") ∈
      (requires_auth admin_u admin_p f auth db).1.headers ∧
    (requires_auth admin_u admin_p f auth db).2 = db ∧
    requires_auth admin_u admin_p f auth db = requires_auth admin_u admin_p g auth db := by
  rcases h with h | ⟨a, ha, hbad⟩
  · subst h
    exact ⟨rfl, by simp [requires_auth, authenticate], rfl, rfl⟩
  · subst ha
    have hr : ∀ k : SiteDB → HttpResponse × SiteDB,
        requires_auth admin_u admin_p k (some a) db = (authenticate, db) := by
      intro k
      simp [requires_auth, hbad]
    rw [hr f, hr g]
    exact ⟨rfl, by simp [authenticate], rfl, rfl⟩

/-- Witness for C9: `/admin` with no credentials gets 401 with the challenge
header, and the handler is irrelevant. -/
theorem requires_auth_rejects_bad_credentials_witness :
    (requires_auth "admin" "password" (fun d => (⟨"secret", 200, []⟩, d)) none
        ⟨[], none, [], []⟩).1.status = 401 ∧
    ("WWW-Authenticate", "Basic realm=\"Login Required\"") ∈
      (requires_auth "admin" "password" (fun d => (⟨"secret", 200, []⟩, d)) none
        ⟨[], none, [], []⟩).1.headers ∧
    (requires_auth "admin" "password" (fun d => (⟨"secret", 200, []⟩, d)) none
        ⟨[], none, [], []⟩).2 = ⟨[], none, [], []⟩ ∧
    requires_auth "admin" "password" (fun d => (⟨"secret", 200, []⟩, d)) none
        ⟨[], none, [], []⟩ =
      requires_auth "admin" "password" (fun d => (⟨"other", 500, []⟩, d)) none
        ⟨[], none, [], []⟩ :=
  requires_auth_rejects_bad_credentials "admin" "password"
    (fun d => (⟨"secret", 200, []⟩, d)) (fun d => (⟨"other", 500, []⟩, d)) none
    ⟨[], none, [], []⟩ (Or.inl rfl)

/-! ### C10: malformed detail-page identifiers get the same 404 as missing ones -/

/-- C10: For every identifier string that `ObjectId` cannot parse, the
`/movie/<id>` endpoint responds `("Content not found", 404)`, exactly the
response for a well-formed but nonexistent identifier; the malformed input
never produces an uncaught error. -/
theorem movie_detail_malformed_id_404 (db : List MovieDoc) (bad good : String)
    (oid : Nat) (hbad : ObjectId bad = none) (hgood : ObjectId good = some oid)
    (hmiss : ∀ d ∈ db, d.oid ≠ oid) :
    movie_detail db bad = ("Content not found", 404) ∧
    movie_detail db bad = movie_detail db good := by
  have h1 : movie_detail db bad = ("Content not found", 404) := by
    simp [movie_detail, hbad]
  have hfind : db.find? (fun d => d.oid == oid) = none := by
    rw [List.find?_eq_none]
    intro d hd
    simpa using hmiss d hd
  have h2 : movie_detail db good = ("Content not found", 404) := by
    simp [movie_detail, hgood, hfind]
  exact ⟨h1, h1.trans h2.symm⟩

/-- Witness for C10: the malformed id `"zz"` and the well-formed but absent
id of 24 zero digits both yield the same 404 on the empty catalogue. -/
theorem movie_detail_malformed_id_404_witness :
    movie_detail [] "zz" = ("Content not found", 404) ∧
    movie_detail [] "zz" = movie_detail [] "000000000000000000000000" :=
  movie_detail_malformed_id_404 [] "zz" "000000000000000000000000" 0 (by decide)
    (by decide) (by decide)

end FreeMovieHub
